import Mathlib

/-
Shallow embedding of the procedure configuration/execution engine of
`composable-http-client` (src/core/builder.ts, src/core/callable.ts,
src/utils/retry.ts, src/utils/processors.ts, src/utils/validation.ts,
src/errors/index.ts).

JavaScript values that flow through the pipeline are modelled by the
inductive `JsValue`; `JsValue.vNull` is the JS `null` literal and
`JsValue.vUndef` is `undefined`.  Thrown values (JS can throw anything)
are also `JsValue`s; the error classes of src/errors/index.ts that the
engine itself constructs appear as dedicated constructors carrying the
same structured fields as the classes.  `vObjLike` stands for a thrown
plain object whose only observable parts are the optional
`response.status` and `status` numeric fields that the retry executor
inspects.  Fallible JS code is `Except JsValue _`: `Except.error e`
models `throw e` / a rejected promise.
-/

deriving instance DecidableEq for Except

namespace CHC

inductive JsValue where
  | vNull
  | vUndef
  | vBool (b : Bool)
  | vInt (n : Int)
  | vStr (s : String)
  | vObjLike (responseStatus : Option Int) (statusField : Option Int)
  | vSimpleError (message : String)
  | vValidationError (validationType : String) (message : String) (zodError : JsValue)
  | vRetryError (attempts : Nat) (lastError : JsValue)
  | vConfigurationError (message : String) (field : Option String)
deriving DecidableEq

/-- Models `error?.response?.status ?? error?.status` from src/utils/retry.ts:
the optional numeric status carried by a thrown value. -/
def JsValue.statusOf : JsValue → Option Int
  | JsValue.vObjLike responseStatus statusField =>
    match responseStatus with
    | some s => some s
    | none => statusField
  | _ => none

/-- Models `typeof status === 'number' && status >= 400 && status < 500`
(src/utils/retry.ts): the never-retry classification for client errors. -/
def hasClientErrorStatus (e : JsValue) : Bool :=
  match e.statusOf with
  | some s => decide (400 ≤ s) && decide (s < 500)
  | none => false

/-- Models `instanceof Error`: true exactly for the error-class constructors. -/
def JsValue.isErrorInstance : JsValue → Bool
  | JsValue.vSimpleError _ => true
  | JsValue.vValidationError _ _ _ => true
  | JsValue.vRetryError _ _ => true
  | JsValue.vConfigurationError _ _ => true
  | _ => false

/-- The `.message` of an error value.  `RetryError` builds its message in its
constructor (src/errors/index.ts): `All N retry attempts failed. Last error: m`. -/
def JsValue.messageOf : JsValue → String
  | JsValue.vSimpleError m => m
  | JsValue.vValidationError _ m _ => m
  | JsValue.vConfigurationError m _ => m
  | JsValue.vRetryError n lastError =>
    "All " ++ toString n ++ " retry attempts failed. Last error: " ++ JsValue.messageOf lastError
  | _ => ""

/-- Models JS `String(v)` for the non-error values the hook wrapper may meet. -/
def jsString : JsValue → String
  | JsValue.vNull => "null"
  | JsValue.vUndef => "undefined"
  | JsValue.vBool b => if b then "true" else "false"
  | JsValue.vInt n => toString n
  | JsValue.vStr s => s
  | JsValue.vObjLike _ _ => "[object Object]"
  | e => JsValue.messageOf e

/-- Models `error instanceof Error ? error.message : String(error)`. -/
def messageOrString (v : JsValue) : String :=
  if v.isErrorInstance then v.messageOf else jsString v

/-- Models the `ConfigurationError` type guard `isConfigurationError`
(src/errors/index.ts). -/
def isConfigurationError : JsValue → Bool
  | JsValue.vConfigurationError _ _ => true
  | _ => false

/-- Models the `RetryError` type guard `isRetryError` (src/errors/index.ts). -/
def isRetryError : JsValue → Bool
  | JsValue.vRetryError _ _ => true
  | _ => false

/-- A zod schema is observed by the engine only through `safeParse`
(src/utils/processors.ts): success carries the parsed data, failure carries
the underlying validator error. -/
abbrev Schema := JsValue → Except JsValue JsValue

/-- The `retry` options object: both fields optional, as in
`options?: { retries?: number; delay?: RetryDelay }`.  The delay only
suspends the loop (`await new Promise(r => setTimeout(r, wait))`), it never
changes outcomes, so it is carried but not interpreted. -/
structure RetryOptions where
  retries : Option Nat
  delay : Option Nat
deriving DecidableEq

/-- The body of the `while (attempt < retries)` loop of src/utils/retry.ts.
`fn attempt` is the outcome of the (attempt+1)-th invocation of the retried
operation; a stateful operation is modelled by indexing on the invocation
count.  The second component counts how many times `fn` was invoked.
`fuel` is the structural bound on loop iterations; `retry` supplies
`fuel := retries`, which is exact since each iteration increments `attempt`
and the loop runs while `attempt < retries`. -/
def retryLoop (fn : Nat → Except JsValue JsValue) (retries : Nat) (attempt : Nat)
    (lastError : Option JsValue) (fuel : Nat) : Except JsValue JsValue × Nat :=
  match fuel with
  | 0 =>
    (Except.error (JsValue.vRetryError attempt
      (lastError.getD (JsValue.vSimpleError "Unexpected retry loop exit"))), 0)
  | fuel' + 1 =>
    if attempt < retries then
      match fn attempt with
      | Except.ok v => (Except.ok v, 1)
      | Except.error e =>
        if hasClientErrorStatus e then
          (Except.error e, 1)
        else if retries ≤ attempt + 1 then
          if 1 < attempt + 1 then
            (Except.error (JsValue.vRetryError (attempt + 1) e), 1)
          else
            (Except.error e, 1)
        else
          let rest := retryLoop fn retries (attempt + 1) (some e) fuel'
          (rest.1, rest.2 + 1)
    else
      (Except.error (JsValue.vRetryError attempt
        (lastError.getD (JsValue.vSimpleError "Unexpected retry loop exit"))), 0)

/-- Models `retry(fn, options?)` of src/utils/retry.ts:
`const { retries = 1, delay = 100 } = options ?? {}` then the bounded loop. -/
def retry (fn : Nat → Except JsValue JsValue) (options : Option RetryOptions) :
    Except JsValue JsValue × Nat :=
  let retries := (options.bind RetryOptions.retries).getD 1
  retryLoop fn retries 0 none retries

/-- Models `processInput(input, inputSchema?)` of src/utils/processors.ts:
no schema passes the value through; a `safeParse` failure raises
`ValidationError('input', 'Input validation failed', result.error)`. -/
def processInput (input : JsValue) (inputSchema : Option Schema) : Except JsValue JsValue :=
  match inputSchema with
  | none => Except.ok input
  | some schema =>
    match schema input with
    | Except.ok v => Except.ok v
    | Except.error zerr =>
      Except.error (JsValue.vValidationError "input" "Input validation failed" zerr)

/-- The `outputSchemaOrFn` slot: either a schema, or a schema-producing
function of `{ ctx, input, output }` (args split positionally here). -/
inductive OutputSchemaOrFn where
  | schema (s : Schema)
  | fn (f : JsValue → JsValue → JsValue → Schema)

/-- Models `processOutput(output, outputSchemaOrFn, ctx, input)` of
src/utils/processors.ts: absent slot passes through; otherwise the (possibly
computed) schema is `safeParse`d against the output, failure raising
`ValidationError('output', 'Output validation failed', result.error)`. -/
def processOutput (output : JsValue) (outputSchemaOrFn : Option OutputSchemaOrFn)
    (ctx : JsValue) (input : JsValue) : Except JsValue JsValue :=
  match outputSchemaOrFn with
  | none => Except.ok output
  | some (OutputSchemaOrFn.fn f) =>
    match f ctx input output output with
    | Except.ok v => Except.ok v
    | Except.error zerr =>
      Except.error (JsValue.vValidationError "output" "Output validation failed" zerr)
  | some (OutputSchemaOrFn.schema s) =>
    match s output with
    | Except.ok v => Except.ok v
    | Except.error zerr =>
      Except.error (JsValue.vValidationError "output" "Output validation failed" zerr)

/-- Models `executeLifecycleHook(hookFn, hookName)` of src/utils/validation.ts:
absence is a no-op; a throwing hook is rewrapped as
`Error('Error in NAME hook: MESSAGE')`.  A hook is a zero-argument callback,
so its one invocation is a fixed outcome value. -/
def executeLifecycleHook (hookFn : Option (Except JsValue Unit)) (hookName : String) :
    Except JsValue Unit :=
  match hookFn with
  | none => Except.ok ()
  | some hookOutcome =>
    match hookOutcome with
    | Except.ok _ => Except.ok ()
    | Except.error e =>
      Except.error (JsValue.vSimpleError
        ("Error in " ++ hookName ++ " hook: " ++ messageOrString e))

/-- The argument of `onCompleteFn` as built in src/core/callable.ts:
`{ isSuccess, isError, input, output, error }`; on the success path
`error: undefined`, on the failure path `output` is whatever had been
computed so far (`undefined` before the handler produced a value). -/
structure CompleteInfo where
  isSuccess : Bool
  isError : Bool
  input : JsValue
  output : JsValue
  error : JsValue
deriving DecidableEq

/-- The `ProcedureConfig` record (src/types/config.ts) at the stage the
callable consumes it.  Optional callbacks are `Option`s; the handler is
additionally indexed by the invocation count so that the retry loop can
observe a stateful handler (`handler input ctx client attempt`). -/
structure ProcedureConfig where
  inputSchema : Option Schema
  outputSchemaOrFn : Option OutputSchemaOrFn
  retryOptions : RetryOptions
  transformFn : Option (JsValue → Except JsValue JsValue)
  catchAllFn : Option (JsValue → Except JsValue JsValue)
  onStartFn : Option (Except JsValue Unit)
  onSuccessFn : Option (Except JsValue Unit)
  onCompleteFn : Option (CompleteInfo → Except JsValue Unit)
  mainHandler : Option (JsValue → JsValue → JsValue → Nat → Except JsValue JsValue)
  ctx : JsValue
  client : JsValue

/-- The `Result` value of src/types/base.ts: `{ data: T | null, error: E | null }`;
`JsValue.vNull` is the `null` written by the two `return` sites of the callable. -/
structure Result where
  data : JsValue
  error : JsValue
deriving DecidableEq

/-- The observable outcome of the `try { ... }` block of the callable
(src/core/callable.ts lines 18-54): the returned output or the thrown value,
together with the values of the local variables `parsedInput` and `output`
at that point (which the catch block reads), how often the handler ran,
which hooks were invoked, and the success-path `onComplete` invocation
(if it happened — it may itself be the source of the thrown value). -/
structure TryOutcome where
  result : Except JsValue JsValue
  parsedInput : JsValue
  outputSoFar : JsValue
  onStartRan : Bool
  onSuccessRan : Bool
  handlerCalls : Nat
  successCompleteCall : Option CompleteInfo
deriving DecidableEq

/-- The observable behaviour of one invocation of the callable:
`outcome` is the resolved `Result` or, when an exception escapes the
async function (a throwing `catchAllFn`), the rejection value;
`completeCalls` lists the `onComplete` invocations in order. -/
structure RunOutput where
  outcome : Except JsValue Result
  completeCalls : List CompleteInfo
  onStartRan : Bool
  onSuccessRan : Bool
  handlerCalls : Nat
deriving DecidableEq

/-- The tail of the try block after the handler output `out1` has passed the
transform stage: output validation, `onSuccess` hook, success-path
`onComplete`, and the success return value (src/core/callable.ts lines 40-54). -/
def outputStage (config : ProcedureConfig) (parsed : JsValue) (startRan : Bool)
    (handlerCalls : Nat) (out1 : JsValue) : TryOutcome :=
  match processOutput out1 config.outputSchemaOrFn config.ctx parsed with
  | Except.error e =>
    ⟨Except.error e, parsed, out1, startRan, false, handlerCalls, none⟩
  | Except.ok out2 =>
    match executeLifecycleHook config.onSuccessFn "onSuccess" with
    | Except.error e =>
      ⟨Except.error e, parsed, out2, startRan, config.onSuccessFn.isSome, handlerCalls, none⟩
    | Except.ok _ =>
      match config.onCompleteFn with
      | none =>
        ⟨Except.ok out2, parsed, out2, startRan, config.onSuccessFn.isSome, handlerCalls, none⟩
      | some cf =>
        match cf ⟨true, false, parsed, out2, JsValue.vUndef⟩ with
        | Except.ok _ =>
          ⟨Except.ok out2, parsed, out2, startRan, config.onSuccessFn.isSome, handlerCalls,
            some ⟨true, false, parsed, out2, JsValue.vUndef⟩⟩
        | Except.error e =>
          ⟨Except.error e, parsed, out2, startRan, config.onSuccessFn.isSome, handlerCalls,
            some ⟨true, false, parsed, out2, JsValue.vUndef⟩⟩

/-- The whole try block of the callable (src/core/callable.ts lines 18-54):
`onStart` hook, input validation, handler-presence re-check, retry-wrapped
handler, transform, then `outputStage`.  On a throw, `parsedInput` keeps the
raw input iff input validation itself threw, and `outputSoFar` keeps the
last value assigned to the `output` local. -/
def tryBlock (config : ProcedureConfig) (input : JsValue) : TryOutcome :=
  match executeLifecycleHook config.onStartFn "onStart" with
  | Except.error e =>
    ⟨Except.error e, input, JsValue.vUndef, config.onStartFn.isSome, false, 0, none⟩
  | Except.ok _ =>
    match processInput input config.inputSchema with
    | Except.error e =>
      ⟨Except.error e, input, JsValue.vUndef, config.onStartFn.isSome, false, 0, none⟩
    | Except.ok parsed =>
      match config.mainHandler with
      | none =>
        ⟨Except.error (JsValue.vSimpleError "Main handler is not defined"), parsed,
          JsValue.vUndef, config.onStartFn.isSome, false, 0, none⟩
      | some handler =>
        match (retry (fun attempt => handler parsed config.ctx config.client attempt)
            (some config.retryOptions)).1 with
        | Except.error e =>
          ⟨Except.error e, parsed, JsValue.vUndef, config.onStartFn.isSome, false,
            (retry (fun attempt => handler parsed config.ctx config.client attempt)
              (some config.retryOptions)).2, none⟩
        | Except.ok handlerOut =>
          match config.transformFn with
          | none =>
            outputStage config parsed config.onStartFn.isSome
              (retry (fun attempt => handler parsed config.ctx config.client attempt)
                (some config.retryOptions)).2 handlerOut
          | some f =>
            match f handlerOut with
            | Except.error e =>
              ⟨Except.error e, parsed, handlerOut, config.onStartFn.isSome, false,
                (retry (fun attempt => handler parsed config.ctx config.client attempt)
                  (some config.retryOptions)).2, none⟩
            | Except.ok transformed =>
              outputStage config parsed config.onStartFn.isSome
                (retry (fun attempt => handler parsed config.ctx config.client attempt)
                  (some config.retryOptions)).2 transformed

/-- One invocation of the callable of src/core/callable.ts: the try block,
then on a throw the catch block — failure-path `onComplete` (its own throw
swallowed by the inner try/catch, `console.warn` only), the optional
`catchAllFn` mapping (NOT inside any try: its throw escapes as a rejection),
and the `{ data: null, error: finalError }` return. -/
def runCallable (config : ProcedureConfig) (input : JsValue) : RunOutput :=
  let t := tryBlock config input
  let successCalls : List CompleteInfo :=
    match t.successCompleteCall with
    | none => []
    | some info => [info]
  match t.result with
  | Except.ok output =>
    { outcome := Except.ok ⟨output, JsValue.vNull⟩, completeCalls := successCalls,
      onStartRan := t.onStartRan, onSuccessRan := t.onSuccessRan,
      handlerCalls := t.handlerCalls }
  | Except.error e =>
    let failureInfo : CompleteInfo := ⟨false, true, t.parsedInput, t.outputSoFar, e⟩
    let calls := successCalls ++
      (match config.onCompleteFn with
       | none => []
       | some _ => [failureInfo])
    let finalOutcome : Except JsValue Result :=
      match config.catchAllFn with
      | none => Except.ok ⟨JsValue.vNull, e⟩
      | some catchAll =>
        match catchAll e with
        | Except.ok mapped => Except.ok ⟨JsValue.vNull, mapped⟩
        | Except.error e2 => Except.error e2
    { outcome := finalOutcome, completeCalls := calls,
      onStartRan := t.onStartRan, onSuccessRan := t.onSuccessRan,
      handlerCalls := t.handlerCalls }

/-- Models `validateConfig(config)` of src/utils/validation.ts: a missing
`mainHandler` throws `ConfigurationError(msg, 'mainHandler')`. -/
def validateConfig (config : ProcedureConfig) : Except JsValue Unit :=
  match config.mainHandler with
  | none =>
    Except.error (JsValue.vConfigurationError
      "Main handler is required. Call .handler() before making the procedure callable."
      (some "mainHandler"))
  | some _ => Except.ok ()

/-- Models `createCallableProcedure(config)` of src/core/callable.ts:
`validateConfig` runs synchronously at materialization, before the callable
closure exists; only then is the per-invocation pipeline returned. -/
def createCallableProcedure (config : ProcedureConfig) :
    Except JsValue (JsValue → RunOutput) :=
  match validateConfig config with
  | Except.error e => Except.error e
  | Except.ok _ => Except.ok (fun input => runCallable config input)

/-- Models `callableWithoutCatchAll` of src/core/builder.ts (lines 26-28):
the builder invoked directly, i.e. `createCallableProcedure(config)(input)`
inside an async wrapper — a materialization failure surfaces as the
rejection of that call, with no hook ever having run. -/
def callableWithoutCatchAll (config : ProcedureConfig) (input : JsValue) : RunOutput :=
  match createCallableProcedure config with
  | Except.error e =>
    { outcome := Except.error e, completeCalls := [], onStartRan := false,
      onSuccessRan := false, handlerCalls := 0 }
  | Except.ok call => call input

/-- The fresh config built by `createProcedureBuilder(ctx, client)`
(src/core/builder.ts lines 19-23): only `retryOptions` is defaulted. -/
def initialConfig (ctx client : JsValue) : ProcedureConfig :=
  { inputSchema := none, outputSchemaOrFn := none,
    retryOptions := { retries := some 1, delay := some 100 },
    transformFn := none, catchAllFn := none, onStartFn := none, onSuccessFn := none,
    onCompleteFn := none, mainHandler := none, ctx := ctx, client := client }

/-- Builder configurator `input(schema)`: single-use, guarded by a thrown
plain `Error('input() can only be called once.')`. -/
def Builder.input (config : ProcedureConfig) (schema : Schema) :
    Except JsValue ProcedureConfig :=
  if config.inputSchema.isSome then
    Except.error (JsValue.vSimpleError "input() can only be called once.")
  else Except.ok { config with inputSchema := some schema }

/-- Builder configurator `onStart(fn)`: single-use. -/
def Builder.onStart (config : ProcedureConfig) (fn : Except JsValue Unit) :
    Except JsValue ProcedureConfig :=
  if config.onStartFn.isSome then
    Except.error (JsValue.vSimpleError "onStart() can only be called once.")
  else Except.ok { config with onStartFn := some fn }

/-- Builder configurator `onSuccess(fn)`: single-use. -/
def Builder.onSuccess (config : ProcedureConfig) (fn : Except JsValue Unit) :
    Except JsValue ProcedureConfig :=
  if config.onSuccessFn.isSome then
    Except.error (JsValue.vSimpleError "onSuccess() can only be called once.")
  else Except.ok { config with onSuccessFn := some fn }

/-- Builder configurator `retry(options?)`: wholesale replacement, never an
error — the one overwriting configurator. -/
def Builder.retry (config : ProcedureConfig) (options : Option RetryOptions) :
    ProcedureConfig :=
  { config with retryOptions := options.getD { retries := some 1, delay := some 100 } }

/-- Builder configurator `handler(fn)`: single-use. -/
def Builder.handler (config : ProcedureConfig)
    (fn : JsValue → JsValue → JsValue → Nat → Except JsValue JsValue) :
    Except JsValue ProcedureConfig :=
  if config.mainHandler.isSome then
    Except.error (JsValue.vSimpleError "handler() can only be called once.")
  else Except.ok { config with mainHandler := some fn }

/-- Builder configurator `output(schemaOrFn)`: single-use. -/
def Builder.output (config : ProcedureConfig) (schemaOrFn : OutputSchemaOrFn) :
    Except JsValue ProcedureConfig :=
  if config.outputSchemaOrFn.isSome then
    Except.error (JsValue.vSimpleError "output() can only be called once.")
  else Except.ok { config with outputSchemaOrFn := some schemaOrFn }

/-- Builder configurator `transform(fn)`: single-use. -/
def Builder.transform (config : ProcedureConfig) (fn : JsValue → Except JsValue JsValue) :
    Except JsValue ProcedureConfig :=
  if config.transformFn.isSome then
    Except.error (JsValue.vSimpleError "transform() can only be called once.")
  else Except.ok { config with transformFn := some fn }

/-- Builder configurator `onComplete(fn)`: single-use. -/
def Builder.onComplete (config : ProcedureConfig)
    (fn : CompleteInfo → Except JsValue Unit) : Except JsValue ProcedureConfig :=
  if config.onCompleteFn.isSome then
    Except.error (JsValue.vSimpleError "onComplete() can only be called once.")
  else Except.ok { config with onCompleteFn := some fn }

/-- Terminal builder configurator `catchAll(fn)`: single-use guard, then the
slot is set and `createCallableProcedure` materializes the callable. -/
def Builder.catchAll (config : ProcedureConfig)
    (fn : JsValue → Except JsValue JsValue) : Except JsValue (JsValue → RunOutput) :=
  if config.catchAllFn.isSome then
    Except.error (JsValue.vSimpleError "catchAll() can only be called once.")
  else createCallableProcedure { config with catchAllFn := some fn }

/-
Concrete example values and configurations used to instantiate the theorems
below at explicit inputs.
-/

/-- A handler that ignores its arguments and returns `v`. -/
def handlerConst (v : JsValue) : JsValue → JsValue → JsValue → Nat → Except JsValue JsValue :=
  fun _ _ _ _ => Except.ok v

/-- A handler that ignores its arguments and throws `e` on every invocation. -/
def handlerThrow (e : JsValue) : JsValue → JsValue → JsValue → Nat → Except JsValue JsValue :=
  fun _ _ _ _ => Except.error e

/-- A minimal successful configuration: only a handler returning `"out"`. -/
def cfgSuccess : ProcedureConfig :=
  { initialConfig JsValue.vNull JsValue.vNull with
      mainHandler := some (handlerConst (JsValue.vStr "out")) }

/-- A handler returning the JS `null` value. -/
def cfgNullOutput : ProcedureConfig :=
  { initialConfig JsValue.vNull JsValue.vNull with
      mainHandler := some (handlerConst JsValue.vNull) }

/-- A handler that always throws, with no catch-all configured. -/
def cfgFailNoCatch : ProcedureConfig :=
  { initialConfig JsValue.vNull JsValue.vNull with
      mainHandler := some (handlerThrow (JsValue.vSimpleError "boom")) }

/-- A handler that always throws, with a catch-all that itself throws. -/
def cfgCatchAllThrows : ProcedureConfig :=
  { initialConfig JsValue.vNull JsValue.vNull with
      mainHandler := some (handlerThrow (JsValue.vSimpleError "boom")),
      catchAllFn := some (fun _ => Except.error (JsValue.vSimpleError "catch boom")) }

/-- A succeeding handler together with an `onComplete` hook that throws. -/
def cfgCompleteThrows : ProcedureConfig :=
  { initialConfig JsValue.vNull JsValue.vNull with
      mainHandler := some (handlerConst (JsValue.vStr "out")),
      onCompleteFn := some (fun _ => Except.error (JsValue.vSimpleError "complete boom")) }

/-- A succeeding handler together with an `onComplete` hook that never throws. -/
def cfgCompleteQuiet : ProcedureConfig :=
  { initialConfig JsValue.vNull JsValue.vNull with
      mainHandler := some (handlerConst (JsValue.vStr "out")),
      onCompleteFn := some (fun _ => Except.ok ()) }

/-- The claimed `Result` invariant: exactly one of the two fields non-null. -/
def exactlyOneNonNull (r : Result) : Prop :=
  (r.data ≠ JsValue.vNull ∧ r.error = JsValue.vNull) ∨
  (r.data = JsValue.vNull ∧ r.error ≠ JsValue.vNull)

instance (r : Result) : Decidable (exactlyOneNonNull r) :=
  inferInstanceAs (Decidable ((r.data ≠ JsValue.vNull ∧ r.error = JsValue.vNull) ∨
    (r.data = JsValue.vNull ∧ r.error ≠ JsValue.vNull)))

/-- C5: `processInput` passes the value through unchanged when no schema is
supplied, and on a schema rejection raises `ValidationError` with
`validationType = 'input'` carrying the underlying validator error. -/
theorem processInput_spec :
    (∀ v, processInput v none = Except.ok v) ∧
    (∀ (s : Schema) (v zerr : JsValue), s v = Except.error zerr →
      processInput v (some s) =
        Except.error (JsValue.vValidationError "input" "Input validation failed" zerr)) := by
  constructor
  · intro v; rfl
  · intro s v zerr h
    simp [processInput, h]

/-- Witness for C5 at a concrete value and a concrete rejecting schema. -/
theorem processInput_spec_witness :
    processInput (JsValue.vStr "x") none = Except.ok (JsValue.vStr "x") ∧
    processInput (JsValue.vStr "x") (some (fun _ => Except.error (JsValue.vStr "zodErr"))) =
      Except.error (JsValue.vValidationError "input" "Input validation failed"
        (JsValue.vStr "zodErr")) :=
  ⟨processInput_spec.1 (JsValue.vStr "x"),
   processInput_spec.2 (fun _ => Except.error (JsValue.vStr "zodErr")) (JsValue.vStr "x")
     (JsValue.vStr "zodErr") rfl⟩

/-- C6: a configuration without `mainHandler` fails at materialization with
`ConfigurationError` whose `field` is `'mainHandler'`; when such a procedure
is invoked through the builder's direct-call pathway the same error surfaces
and no hook (in particular `onStart`) and no `onComplete` ever runs. -/
theorem missing_handler_configuration_error (config : ProcedureConfig) (input : JsValue)
    (h : config.mainHandler = none) :
    createCallableProcedure config =
      Except.error (JsValue.vConfigurationError
        "Main handler is required. Call .handler() before making the procedure callable."
        (some "mainHandler")) ∧
    (callableWithoutCatchAll config input).outcome =
      Except.error (JsValue.vConfigurationError
        "Main handler is required. Call .handler() before making the procedure callable."
        (some "mainHandler")) ∧
    (callableWithoutCatchAll config input).onStartRan = false ∧
    (callableWithoutCatchAll config input).completeCalls = [] := by
  have hv : validateConfig config =
      Except.error (JsValue.vConfigurationError
        "Main handler is required. Call .handler() before making the procedure callable."
        (some "mainHandler")) := by
    simp [validateConfig, h]
  refine ⟨?_, ?_, ?_, ?_⟩ <;>
    simp [createCallableProcedure, callableWithoutCatchAll, hv]

/-- Witness for C6 at the fresh builder configuration. -/
theorem missing_handler_configuration_error_witness :
    createCallableProcedure (initialConfig JsValue.vNull JsValue.vNull) =
      Except.error (JsValue.vConfigurationError
        "Main handler is required. Call .handler() before making the procedure callable."
        (some "mainHandler")) ∧
    (callableWithoutCatchAll (initialConfig JsValue.vNull JsValue.vNull)
        JsValue.vNull).onStartRan = false :=
  ⟨(missing_handler_configuration_error (initialConfig JsValue.vNull JsValue.vNull)
      JsValue.vNull rfl).1,
   (missing_handler_configuration_error (initialConfig JsValue.vNull JsValue.vNull)
      JsValue.vNull rfl).2.2.1⟩

/-- C9: with no `catchAllFn` configured, every invocation still resolves to a
`Result`, and a pipeline failure comes back with the raw caught error in the
`error` field, unmapped. -/
theorem no_catchAll_raw_error (config : ProcedureConfig) (input : JsValue)
    (hc : config.catchAllFn = none) :
    (∃ r, (runCallable config input).outcome = Except.ok r) ∧
    (∀ e, (tryBlock config input).result = Except.error e →
      (runCallable config input).outcome = Except.ok ⟨JsValue.vNull, e⟩) := by
  constructor
  · cases hres : (tryBlock config input).result with
    | ok v => exact ⟨⟨v, JsValue.vNull⟩, by simp [runCallable, hres]⟩
    | error e => exact ⟨⟨JsValue.vNull, e⟩, by simp [runCallable, hres, hc]⟩
  · intro e he
    simp [runCallable, he, hc]

/-- Witness for C9: a failing handler with no catch-all returns the raw error. -/
theorem no_catchAll_raw_error_witness :
    (runCallable cfgFailNoCatch JsValue.vNull).outcome =
      Except.ok ⟨JsValue.vNull, JsValue.vSimpleError "boom"⟩ :=
  (no_catchAll_raw_error cfgFailNoCatch JsValue.vNull rfl).2
    (JsValue.vSimpleError "boom") (by decide)

/-- C10: when the pipeline has failed and `catchAllFn` itself throws on the
caught error, that exception escapes the callable: the invocation rejects
instead of resolving to a `Result`. -/
theorem catchAll_throw_escapes (config : ProcedureConfig) (input : JsValue)
    (f : JsValue → Except JsValue JsValue) (e e2 : JsValue)
    (hc : config.catchAllFn = some f)
    (ht : (tryBlock config input).result = Except.error e)
    (hf : f e = Except.error e2) :
    (runCallable config input).outcome = Except.error e2 := by
  simp [runCallable, ht, hc, hf]

/-- Witness for C10: a throwing catch-all turns the call into a rejection. -/
theorem catchAll_throw_escapes_witness :
    (runCallable cfgCatchAllThrows JsValue.vNull).outcome =
      Except.error (JsValue.vSimpleError "catch boom") :=
  catchAll_throw_escapes cfgCatchAllThrows JsValue.vNull
    (fun _ => Except.error (JsValue.vSimpleError "catch boom"))
    (JsValue.vSimpleError "boom") (JsValue.vSimpleError "catch boom")
    rfl (by decide) rfl

/-- C1 (amended): on every invocation that resolves, at least one of the two
`Result` fields is the JS `null`: the success return site writes
`error: null` and the failure return site writes `data: null`.  The claimed
"exactly one field non-null" additionally needs the success payload
(resp. the final error value) to be non-null, which a `null` handler output
or `null` catch-all mapping violates (see the counterexample). -/
theorem result_at_least_one_null (config : ProcedureConfig) (input : JsValue) (r : Result)
    (h : (runCallable config input).outcome = Except.ok r) :
    r.error = JsValue.vNull ∨ r.data = JsValue.vNull := by
  cases hres : (tryBlock config input).result with
  | ok v =>
    simp [runCallable, hres] at h
    subst h
    left
    rfl
  | error e =>
    cases hca : config.catchAllFn with
    | none =>
      simp [runCallable, hres, hca] at h
      subst h
      right
      rfl
    | some catchAll =>
      cases hf : catchAll e with
      | ok mapped =>
        simp [runCallable, hres, hca, hf] at h
        subst h
        right
        rfl
      | error e2 =>
        simp [runCallable, hres, hca, hf] at h

/-- Witness for C1 (amended) at a successful concrete call. -/
theorem result_at_least_one_null_witness :
    (⟨JsValue.vStr "out", JsValue.vNull⟩ : Result).error = JsValue.vNull ∨
    (⟨JsValue.vStr "out", JsValue.vNull⟩ : Result).data = JsValue.vNull :=
  result_at_least_one_null cfgSuccess JsValue.vNull
    ⟨JsValue.vStr "out", JsValue.vNull⟩ (by decide)

/-- C1 counterexample: a handler returning the JS `null` makes the call
resolve with `data` and `error` BOTH null, so "exactly one of the two fields
non-null for every handler output value" is false on the code. -/
theorem result_both_null_counterexample :
    (runCallable cfgNullOutput JsValue.vNull).outcome =
      Except.ok ⟨JsValue.vNull, JsValue.vNull⟩ ∧
    ¬ exactlyOneNonNull ⟨JsValue.vNull, JsValue.vNull⟩ := by
  constructor
  · decide
  · decide

/-- C7 (amended): each single-use configurator (`input`, `onStart`,
`onSuccess`, `handler`, `output`, `transform`, `onComplete`, `catchAll`)
rejects a second call on the same builder with a synchronously thrown plain
`Error` whose message is `'X() can only be called once.'` — a plain `Error`,
not a `ConfigurationError` (see the counterexample). -/
theorem builder_single_use (config : ProcedureConfig) :
    (∀ s1 s2, config.inputSchema = none →
      (Builder.input config s1).bind (fun c => Builder.input c s2) =
        Except.error (JsValue.vSimpleError "input() can only be called once.")) ∧
    (∀ f1 f2, config.onStartFn = none →
      (Builder.onStart config f1).bind (fun c => Builder.onStart c f2) =
        Except.error (JsValue.vSimpleError "onStart() can only be called once.")) ∧
    (∀ f1 f2, config.onSuccessFn = none →
      (Builder.onSuccess config f1).bind (fun c => Builder.onSuccess c f2) =
        Except.error (JsValue.vSimpleError "onSuccess() can only be called once.")) ∧
    (∀ f1 f2, config.mainHandler = none →
      (Builder.handler config f1).bind (fun c => Builder.handler c f2) =
        Except.error (JsValue.vSimpleError "handler() can only be called once.")) ∧
    (∀ s1 s2, config.outputSchemaOrFn = none →
      (Builder.output config s1).bind (fun c => Builder.output c s2) =
        Except.error (JsValue.vSimpleError "output() can only be called once.")) ∧
    (∀ f1 f2, config.transformFn = none →
      (Builder.transform config f1).bind (fun c => Builder.transform c f2) =
        Except.error (JsValue.vSimpleError "transform() can only be called once.")) ∧
    (∀ f1 f2, config.onCompleteFn = none →
      (Builder.onComplete config f1).bind (fun c => Builder.onComplete c f2) =
        Except.error (JsValue.vSimpleError "onComplete() can only be called once.")) ∧
    (∀ f1 f2, config.catchAllFn = none →
      Builder.catchAll { config with catchAllFn := some f1 } f2 =
        Except.error (JsValue.vSimpleError "catchAll() can only be called once.")) := by
  refine ⟨?_, ?_, ?_, ?_, ?_, ?_, ?_, ?_⟩ <;> intro a1 a2 h <;>
    simp [Builder.input, Builder.onStart, Builder.onSuccess, Builder.handler,
      Builder.output, Builder.transform, Builder.onComplete, Builder.catchAll,
      h, Except.bind]

/-- Witness for C7 (amended): all eight double-call rejections at the fresh
builder configuration. -/
theorem builder_single_use_witness :
    (Builder.input (initialConfig JsValue.vNull JsValue.vNull) (fun v => Except.ok v)).bind
        (fun c => Builder.input c (fun v => Except.ok v)) =
      Except.error (JsValue.vSimpleError "input() can only be called once.") ∧
    (Builder.onStart (initialConfig JsValue.vNull JsValue.vNull) (Except.ok ())).bind
        (fun c => Builder.onStart c (Except.ok ())) =
      Except.error (JsValue.vSimpleError "onStart() can only be called once.") ∧
    (Builder.onSuccess (initialConfig JsValue.vNull JsValue.vNull) (Except.ok ())).bind
        (fun c => Builder.onSuccess c (Except.ok ())) =
      Except.error (JsValue.vSimpleError "onSuccess() can only be called once.") ∧
    (Builder.handler (initialConfig JsValue.vNull JsValue.vNull)
        (handlerConst JsValue.vNull)).bind
        (fun c => Builder.handler c (handlerConst JsValue.vNull)) =
      Except.error (JsValue.vSimpleError "handler() can only be called once.") ∧
    (Builder.output (initialConfig JsValue.vNull JsValue.vNull)
        (OutputSchemaOrFn.schema (fun v => Except.ok v))).bind
        (fun c => Builder.output c (OutputSchemaOrFn.schema (fun v => Except.ok v))) =
      Except.error (JsValue.vSimpleError "output() can only be called once.") ∧
    (Builder.transform (initialConfig JsValue.vNull JsValue.vNull)
        (fun v => Except.ok v)).bind
        (fun c => Builder.transform c (fun v => Except.ok v)) =
      Except.error (JsValue.vSimpleError "transform() can only be called once.") ∧
    (Builder.onComplete (initialConfig JsValue.vNull JsValue.vNull)
        (fun _ => Except.ok ())).bind
        (fun c => Builder.onComplete c (fun _ => Except.ok ())) =
      Except.error (JsValue.vSimpleError "onComplete() can only be called once.") ∧
    Builder.catchAll
        { initialConfig JsValue.vNull JsValue.vNull with
            catchAllFn := some (fun e => Except.ok e) } (fun e => Except.ok e) =
      Except.error (JsValue.vSimpleError "catchAll() can only be called once.") :=
  ⟨(builder_single_use (initialConfig JsValue.vNull JsValue.vNull)).1 _ _ rfl,
   (builder_single_use (initialConfig JsValue.vNull JsValue.vNull)).2.1 _ _ rfl,
   (builder_single_use (initialConfig JsValue.vNull JsValue.vNull)).2.2.1 _ _ rfl,
   (builder_single_use (initialConfig JsValue.vNull JsValue.vNull)).2.2.2.1 _ _ rfl,
   (builder_single_use (initialConfig JsValue.vNull JsValue.vNull)).2.2.2.2.1 _ _ rfl,
   (builder_single_use (initialConfig JsValue.vNull JsValue.vNull)).2.2.2.2.2.1 _ _ rfl,
   (builder_single_use (initialConfig JsValue.vNull JsValue.vNull)).2.2.2.2.2.2.1 _ _ rfl,
   (builder_single_use (initialConfig JsValue.vNull JsValue.vNull)).2.2.2.2.2.2.2 _ _ rfl⟩

/-- C7 counterexample: the value thrown by a repeated `input()` call is a
plain `Error`, not a `ConfigurationError` — the `isConfigurationError` type
guard rejects it. -/
theorem builder_double_call_plain_error_counterexample :
    Builder.input
        { initialConfig JsValue.vNull JsValue.vNull with
            inputSchema := some (fun v => Except.ok v) } (fun v => Except.ok v) =
      Except.error (JsValue.vSimpleError "input() can only be called once.") ∧
    isConfigurationError (JsValue.vSimpleError "input() can only be called once.") = false := by
  constructor
  · rfl
  · rfl

/-- With no `onSuccess` and no `onComplete` configured, the try block's tail
after the transform stage is exactly the output-validation verdict. -/
theorem outputStage_result_noHooks (config : ProcedureConfig) (parsed : JsValue)
    (startRan : Bool) (hc : Nat) (out1 : JsValue)
    (hsucc : config.onSuccessFn = none) (hcomp : config.onCompleteFn = none) :
    (outputStage config parsed startRan hc out1).result =
      processOutput out1 config.outputSchemaOrFn config.ctx parsed := by
  unfold outputStage
  cases hpo : processOutput out1 config.outputSchemaOrFn config.ctx parsed with
  | ok out2 => simp [hpo, executeLifecycleHook, hsucc, hcomp]
  | error e => simp [hpo]

/-- C8: in the executed pipeline, `transformFn` is applied to the handler's
output BEFORE output validation: whenever the stages up to the transform
succeed, the value that `processOutput` validates against `outputSchemaOrFn`
is the transformed value `v'`, not the raw handler output `v`. -/
theorem transform_before_output_validation (config : ProcedureConfig)
    (input parsed v v' : JsValue) (f : JsValue → Except JsValue JsValue)
    (hnd : JsValue → JsValue → JsValue → Nat → Except JsValue JsValue)
    (hstart : config.onStartFn = none)
    (hsucc : config.onSuccessFn = none)
    (hcomp : config.onCompleteFn = none)
    (hin : processInput input config.inputSchema = Except.ok parsed)
    (hm : config.mainHandler = some hnd)
    (hr : (retry (fun attempt => hnd parsed config.ctx config.client attempt)
        (some config.retryOptions)).1 = Except.ok v)
    (ht : config.transformFn = some f)
    (hf : f v = Except.ok v') :
    (tryBlock config input).result =
      processOutput v' config.outputSchemaOrFn config.ctx parsed := by
  have key := outputStage_result_noHooks config parsed config.onStartFn.isSome
    (retry (fun attempt => hnd parsed config.ctx config.client attempt)
      (some config.retryOptions)).2 v' hsucc hcomp
  simp only [tryBlock, executeLifecycleHook, hstart, hin, hm, hr, ht, hf]
  simpa [hstart] using key

/-- Witness for C8: a schema that only accepts the transformed value sees the
transformed value. -/
theorem transform_before_output_validation_witness :
    (tryBlock
        { initialConfig JsValue.vNull JsValue.vNull with
            mainHandler := some (handlerConst (JsValue.vStr "raw")),
            transformFn := some (fun _ => Except.ok (JsValue.vStr "transformed")),
            outputSchemaOrFn := some (OutputSchemaOrFn.schema (fun v =>
              if v = JsValue.vStr "transformed" then Except.ok v
              else Except.error (JsValue.vStr "rejected"))) }
        JsValue.vNull).result =
      processOutput (JsValue.vStr "transformed")
        (some (OutputSchemaOrFn.schema (fun v =>
          if v = JsValue.vStr "transformed" then Except.ok v
          else Except.error (JsValue.vStr "rejected"))))
        JsValue.vNull JsValue.vNull :=
  transform_before_output_validation
    { initialConfig JsValue.vNull JsValue.vNull with
        mainHandler := some (handlerConst (JsValue.vStr "raw")),
        transformFn := some (fun _ => Except.ok (JsValue.vStr "transformed")),
        outputSchemaOrFn := some (OutputSchemaOrFn.schema (fun v =>
          if v = JsValue.vStr "transformed" then Except.ok v
          else Except.error (JsValue.vStr "rejected"))) }
    JsValue.vNull JsValue.vNull (JsValue.vStr "raw") (JsValue.vStr "transformed")
    (fun _ => Except.ok (JsValue.vStr "transformed")) (handlerConst (JsValue.vStr "raw"))
    rfl rfl rfl rfl rfl (by decide) rfl rfl

/-- Loop invariant for an operation that fails with a non-4xx error on every
attempt: once at least two total attempts are budgeted, the loop ends by
wrapping the last error in `RetryError(retries, lastError)` after invoking
the operation `retries - attempt` more times. -/
theorem retryLoop_allFail (errs : Nat → JsValue) (retries : Nat)
    (h4 : ∀ i, i < retries → hasClientErrorStatus (errs i) = false) (h2 : 2 ≤ retries) :
    ∀ fuel attempt lastError, attempt + fuel = retries → attempt < retries →
      retryLoop (fun i => Except.error (errs i)) retries attempt lastError fuel =
        (Except.error (JsValue.vRetryError retries (errs (retries - 1))), retries - attempt) := by
  intro fuel
  induction fuel with
  | zero =>
    intro attempt lastError hsum hlt
    omega
  | succ f ih =>
    intro attempt lastError hsum hlt
    unfold retryLoop
    rw [if_pos hlt]
    simp only [h4 attempt hlt, Bool.false_eq_true, if_false]
    by_cases hle : retries ≤ attempt + 1
    · have heq : attempt + 1 = retries := by omega
      rw [if_pos hle, if_pos (by omega)]
      have h1 : retries - attempt = 1 := by omega
      have hprev : attempt = retries - 1 := by omega
      rw [h1, heq, hprev]
    · rw [if_neg hle]
      have hrec := ih (attempt + 1) (some (errs attempt)) (by omega) (by omega)
      simp only [hrec]
      have : retries - attempt = retries - (attempt + 1) + 1 := by omega
      rw [this]

/-- C3: when the retried operation fails on every attempt with non-4xx
errors, exhausting a budget of `retries` total attempts surfaces
`RetryError { attempts := retries, lastError }` if more than one attempt was
made, and the original error unwrapped when `retries` was 1; in both cases
the operation is invoked exactly `retries` times. -/
theorem retry_exhaustion (errs : Nat → JsValue) (retries : Nat)
    (h4 : ∀ i, i < retries → hasClientErrorStatus (errs i) = false) :
    (2 ≤ retries →
      retry (fun i => Except.error (errs i)) (some ⟨some retries, some 1⟩) =
        (Except.error (JsValue.vRetryError retries (errs (retries - 1))), retries)) ∧
    (retries = 1 →
      retry (fun i => Except.error (errs i)) (some ⟨some retries, some 1⟩) =
        (Except.error (errs 0), 1)) := by
  constructor
  · intro h2
    have key := retryLoop_allFail errs retries h4 h2 retries 0 none (by omega) (by omega)
    simpa [retry] using key
  · intro h1
    subst h1
    simp [retry, retryLoop, h4 0 (by omega)]

/-- Witness for C3: three non-4xx failures under `retries = 3` yield
`RetryError` with `attempts = 3`; under `retries = 1` the same error
surfaces unwrapped. -/
theorem retry_exhaustion_witness :
    retry (fun i => Except.error ((fun _ => JsValue.vSimpleError "boom") i))
        (some ⟨some 3, some 1⟩) =
      (Except.error (JsValue.vRetryError 3 (JsValue.vSimpleError "boom")), 3) ∧
    retry (fun i => Except.error ((fun _ => JsValue.vSimpleError "boom") i))
        (some ⟨some 1, some 1⟩) =
      (Except.error (JsValue.vSimpleError "boom"), 1) :=
  ⟨(retry_exhaustion (fun _ => JsValue.vSimpleError "boom") 3
      (fun _ _ => rfl)).1 (by omega),
   (retry_exhaustion (fun _ => JsValue.vSimpleError "boom") 1
      (fun _ _ => rfl)).2 rfl⟩

/-- Loop invariant for the 4xx short circuit: if the first 4xx-carrying error
appears on attempt `k` (earlier attempts failing with non-4xx errors), the
loop rethrows it unwrapped after exactly `k + 1 - attempt` more invocations. -/
theorem retryLoop_first4xx (fn : Nat → Except JsValue JsValue) (retries k : Nat) (e : JsValue)
    (hk : k < retries) (he : fn k = Except.error e) (h4 : hasClientErrorStatus e = true)
    (hprev : ∀ i, i < k → ∃ ei, fn i = Except.error ei ∧ hasClientErrorStatus ei = false) :
    ∀ fuel attempt lastError, attempt + fuel = retries → attempt ≤ k →
      retryLoop fn retries attempt lastError fuel = (Except.error e, k + 1 - attempt) := by
  intro fuel
  induction fuel with
  | zero =>
    intro attempt lastError hsum hak
    omega
  | succ f ih =>
    intro attempt lastError hsum hak
    unfold retryLoop
    rw [if_pos (by omega)]
    by_cases hek : attempt = k
    · subst hek
      rw [he]
      simp only [h4, if_true]
      have : attempt + 1 - attempt = 1 := by omega
      rw [this]
    · have hlt : attempt < k := by omega
      obtain ⟨ei, hfi, h4i⟩ := hprev attempt hlt
      rw [hfi]
      simp only [h4i, Bool.false_eq_true, if_false]
      rw [if_neg (by omega)]
      have hrec := ih (attempt + 1) (some ei) (by omega) (by omega)
      simp only [hrec]
      have : k + 1 - attempt = k + 1 - (attempt + 1) + 1 := by omega
      rw [this]

/-- C4: an error carrying a 4xx status (via `response.status` or `status`)
aborts the retry executor on its first occurrence: the operation is invoked
exactly `k + 1` times when the 4xx error first appears on attempt `k`
(never re-invoked afterwards, whatever the remaining budget), and the error
is rethrown unwrapped, never inside a `RetryError`. -/
theorem retry_client_error_short_circuit (fn : Nat → Except JsValue JsValue)
    (retries k : Nat) (e : JsValue)
    (hk : k < retries) (he : fn k = Except.error e) (h4 : hasClientErrorStatus e = true)
    (hprev : ∀ i, i < k → ∃ ei, fn i = Except.error ei ∧ hasClientErrorStatus ei = false) :
    retry fn (some ⟨some retries, some 1⟩) = (Except.error e, k + 1) := by
  have key := retryLoop_first4xx fn retries k e hk he h4 hprev retries 0 none
    (by omega) (by omega)
  simpa [retry] using key

/-- Witness for C4: a `{response:{status:404}}`-shaped error aborts on the
very first attempt even with a budget of 5. -/
theorem retry_client_error_short_circuit_witness :
    retry (fun _ => Except.error (JsValue.vObjLike (some 404) none))
        (some ⟨some 5, some 1⟩) =
      (Except.error (JsValue.vObjLike (some 404) none), 0 + 1) :=
  retry_client_error_short_circuit (fun _ => Except.error (JsValue.vObjLike (some 404) none))
    5 0 (JsValue.vObjLike (some 404) none) (by omega) rfl rfl
    (fun i hi => absurd hi (Nat.not_lt_zero i))

/-- The success-path `onComplete` invocation, when it happens, always carries
`isSuccess: true, isError: false, error: undefined`. -/
theorem outputStage_successCall_shape (config : ProcedureConfig) (parsed : JsValue)
    (startRan : Bool) (hc : Nat) (out1 : JsValue) (info : CompleteInfo)
    (h : (outputStage config parsed startRan hc out1).successCompleteCall = some info) :
    info.isSuccess = true ∧ info.isError = false ∧ info.error = JsValue.vUndef := by
  unfold outputStage at h
  split at h
  · simp at h
  · split at h
    · simp at h
    · split at h
      · simp at h
      · split at h
        · simp at h
          subst h
          exact ⟨rfl, rfl, rfl⟩
        · simp at h
          subst h
          exact ⟨rfl, rfl, rfl⟩

/-- Lifts `outputStage_successCall_shape` through the whole try block. -/
theorem tryBlock_successCall_shape (config : ProcedureConfig) (input : JsValue)
    (info : CompleteInfo)
    (h : (tryBlock config input).successCompleteCall = some info) :
    info.isSuccess = true ∧ info.isError = false ∧ info.error = JsValue.vUndef := by
  unfold tryBlock at h
  split at h
  · simp at h
  · split at h
    · simp at h
    · split at h
      · simp at h
      · split at h
        · simp at h
        · split at h
          · exact outputStage_successCall_shape _ _ _ _ _ info h
          · split at h
            · simp at h
            · exact outputStage_successCall_shape _ _ _ _ _ info h

/-- With a never-throwing `onComplete` configured, the try-block tail either
throws without having made the success-path `onComplete` call, or succeeds
having made exactly one. -/
theorem outputStage_result_call (config : ProcedureConfig) (parsed : JsValue)
    (startRan : Bool) (hc : Nat) (out1 : JsValue)
    (cf : CompleteInfo → Except JsValue Unit)
    (hcf : config.onCompleteFn = some cf) (hok : ∀ i, cf i = Except.ok ()) :
    ((∃ e, (outputStage config parsed startRan hc out1).result = Except.error e) ∧
      (outputStage config parsed startRan hc out1).successCompleteCall = none) ∨
    ((∃ v, (outputStage config parsed startRan hc out1).result = Except.ok v) ∧
      ∃ info, (outputStage config parsed startRan hc out1).successCompleteCall = some info) := by
  unfold outputStage
  split
  · left
    exact ⟨⟨_, rfl⟩, rfl⟩
  · split
    · left
      exact ⟨⟨_, rfl⟩, rfl⟩
    · split
      · rename_i heq
        rw [hcf] at heq
        exact Option.noConfusion heq
      · rename_i cf' heq
        rw [hcf] at heq
        injection heq with hsame
        subst hsame
        split
        · right
          exact ⟨⟨_, rfl⟩, ⟨_, rfl⟩⟩
        · rename_i e heq2
          rw [hok] at heq2
          exact Except.noConfusion heq2

/-- With a never-throwing `onComplete` configured, a whole-try-block throw
means the success-path `onComplete` call never happened, and a success means
it happened exactly once. -/
theorem tryBlock_result_call (config : ProcedureConfig) (input : JsValue)
    (cf : CompleteInfo → Except JsValue Unit)
    (hcf : config.onCompleteFn = some cf) (hok : ∀ i, cf i = Except.ok ()) :
    ((∃ e, (tryBlock config input).result = Except.error e) ∧
      (tryBlock config input).successCompleteCall = none) ∨
    ((∃ v, (tryBlock config input).result = Except.ok v) ∧
      ∃ info, (tryBlock config input).successCompleteCall = some info) := by
  unfold tryBlock
  split
  · left
    exact ⟨⟨_, rfl⟩, rfl⟩
  · split
    · left
      exact ⟨⟨_, rfl⟩, rfl⟩
    · split
      · left
        exact ⟨⟨_, rfl⟩, rfl⟩
      · split
        · left
          exact ⟨⟨_, rfl⟩, rfl⟩
        · split
          · exact outputStage_result_call _ _ _ _ _ cf hcf hok
          · split
            · left
              exact ⟨⟨_, rfl⟩, rfl⟩
            · exact outputStage_result_call _ _ _ _ _ cf hcf hok

/-- C2 (amended): with `onCompleteFn` configured and `onComplete` itself
never throwing, every call makes exactly one `onComplete` invocation — on the
success and on the failure path alike — with `isSuccess` the negation of
`isError`, and (granted the pipeline never throws the JS `undefined` value)
with `error` present exactly when `isError`.  The original claim's "a failure
thrown by onComplete itself is swallowed, never masking the outcome" holds
only for the failure-path invocation: see the counterexample for the
success-path invocation. -/
theorem onComplete_exactly_once (config : ProcedureConfig) (input : JsValue)
    (cf : CompleteInfo → Except JsValue Unit)
    (hcf : config.onCompleteFn = some cf)
    (hok : ∀ i, cf i = Except.ok ())
    (hdef : ∀ e, (tryBlock config input).result = Except.error e → e ≠ JsValue.vUndef) :
    (runCallable config input).completeCalls.length = 1 ∧
    ∀ info ∈ (runCallable config input).completeCalls,
      info.isSuccess = !info.isError ∧ (info.isError = true ↔ info.error ≠ JsValue.vUndef) := by
  rcases tryBlock_result_call config input cf hcf hok with
    ⟨⟨e, hres⟩, hsc⟩ | ⟨⟨v, hres⟩, info, hsc⟩
  · have calls_eq : (runCallable config input).completeCalls =
        [⟨false, true, (tryBlock config input).parsedInput,
          (tryBlock config input).outputSoFar, e⟩] := by
      simp [runCallable, hres, hsc, hcf]
    constructor
    · rw [calls_eq]
      rfl
    · intro i hi
      rw [calls_eq] at hi
      simp at hi
      subst hi
      refine ⟨rfl, ?_, ?_⟩
      · intro _
        exact hdef e hres
      · intro _
        rfl
  · obtain ⟨h1, h2, h3⟩ := tryBlock_successCall_shape config input info hsc
    have calls_eq : (runCallable config input).completeCalls = [info] := by
      simp [runCallable, hres, hsc]
    constructor
    · rw [calls_eq]
      rfl
    · intro i hi
      rw [calls_eq] at hi
      simp at hi
      subst hi
      refine ⟨by rw [h1, h2]; rfl, ?_, ?_⟩
      · intro hcontra
        rw [h2] at hcontra
        exact Bool.noConfusion hcontra
      · intro hne
        exact absurd h3 hne

/-- Witness for C2 (amended): a quiet `onComplete` runs exactly once on a
successful concrete call. -/
theorem onComplete_exactly_once_witness :
    (runCallable cfgCompleteQuiet JsValue.vNull).completeCalls.length = 1 :=
  (onComplete_exactly_once cfgCompleteQuiet JsValue.vNull (fun _ => Except.ok ())
    rfl (fun _ => rfl)
    (by
      intro e h
      have hres : (tryBlock cfgCompleteQuiet JsValue.vNull).result =
          Except.ok (JsValue.vStr "out") := by decide
      rw [hres] at h
      exact Except.noConfusion h)).1

/-- C2 counterexample: when `onComplete` itself throws on the success path,
it is invoked TWICE in the same call (success-path invocation, then
failure-path invocation from the catch block), and the call's outcome flips
from success to failure carrying the `onComplete` error — the throw is not
swallowed there and masks the already-computed success. -/
theorem onComplete_double_invocation_counterexample :
    (runCallable cfgCompleteThrows JsValue.vNull).completeCalls.length = 2 ∧
    (runCallable cfgCompleteThrows JsValue.vNull).outcome =
      Except.ok ⟨JsValue.vNull, JsValue.vSimpleError "complete boom"⟩ :=
  ⟨by decide, by decide⟩

end CHC
